import Mathlib

/-!
Verification of the sp_arena bump allocator (src/sp_arena.c, with src/spar.h
as the data model).  The development is a shallow embedding:

* `size_t` values are `Nat`, with the 64-bit wrap written explicitly as
  `% U64` at every arithmetic step the C source performs on `size_t`
  (additions that are stored or compared, and subtractions, via `sub64`).
* Pointers are `Nat` addresses; the null pointer is `0` where the source
  compares a pointer against NULL, and a nullable `sp_arena*` argument is
  `Option sp_arena`.
* An `sp_arena_block` carries a stable `id : Nat` standing for the address
  of its node, since the C code identifies blocks by pointer.  The chain of
  blocks is kept as a `List` in chain order (`next` links are list
  succession, the head is `first`), and `cur` is the index of `current`; a
  NULL `current` pointer corresponds to `cur` being out of range.
* The backing allocator (`config.allocator`) is modelled as always
  succeeding; the address of a freshly returned buffer and the id of a
  freshly allocated block node are passed in as explicit oracle arguments
  (`mem`, `fresh`).  The function-pointer pairing validation of
  `sp_arena_create_with_config` concerns capabilities outside this model.
* `memcpy` / `memset` performed by the source are recorded as events
  (destination, source, length) in the return value rather than by a byte
  heap, so a theorem can state exactly what the source copies.
-/

namespace SpArena

/-- 2^64, the modulus of `size_t` arithmetic on the 64-bit platform the
source targets (`SP_ARENA_DEFAULT_ALIGNMENT` is `sizeof(void*)`). -/
def U64 : Nat := 2 ^ 64

/-- `size_t` subtraction `a - b`: wraps modulo 2^64. -/
def sub64 (a b : Nat) : Nat := (a + (U64 - b % U64)) % U64

/-- `sp_arena_err_t` from src/spar.h. -/
inductive sp_arena_err_t where
  | NONE
  | OUT_OF_MEMORY
  | INVALID_ALIGNMENT
  | INVALID_SIZE
  | INVALID_ARENA
  | ARENA_NOT_ALLOCATED
  | ALLOCATION_TOO_LARGE
deriving DecidableEq, Inhabited

/-- `is_power_of_two` from src/sp_arena.c:
`(n != 0) && ((n & (n - 1))) == 0`. -/
def is_power_of_two (n : Nat) : Bool :=
  n != 0 && (n &&& (n - 1)) == 0

/-- `align_forward(ptr, align)` from src/sp_arena.c:
`(ptr + mask) & ~mask` in `size_t` arithmetic, `mask = align - 1`.
For the asserted precondition (`align` a power of two) the 64-bit
`& ~mask` clears the bits below `align`, i.e. subtracts the remainder
modulo `align`; that arithmetic reading is used here so that the wrap of
`ptr + mask` past 2^64 is kept exactly. -/
def align_forward (ptr align : Nat) : Nat :=
  let x := (ptr + (align - 1)) % U64
  x - x % align

/-- `sp_arena_block` from src/spar.h.  `id` stands for the address of the
block node itself (the C `sp_arena_block*`); `next` is represented by list
succession in `sp_arena.blocks`. -/
structure sp_arena_block where
  id : Nat
  memory : Nat
  size : Nat
  used : Nat
deriving DecidableEq, Inhabited

/-- `sp_arena_config` from src/spar.h (the allocator/deallocator function
pointers are outside the model; the allocator is modelled as total). -/
structure sp_arena_config where
  block_size : Nat
  alignment : Nat
  fixed_size : Bool
deriving DecidableEq, Inhabited

/-- `sp_arena` from src/spar.h.  `blocks` is the chain in chain order
(head = `first`), `cur` the index of `current`. -/
structure sp_arena where
  blocks : List sp_arena_block
  cur : Nat
  total_allocated : Nat
  total_used : Nat
  config : sp_arena_config
  last_err : sp_arena_err_t
deriving DecidableEq, Inhabited

/-- `SP_ARENA_DEFAULT_CONFIG`: `block_size = KB(64)`, `alignment =
sizeof(void*) = 8` on the 64-bit target, growable. -/
def SP_ARENA_DEFAULT_CONFIG : sp_arena_config :=
  { block_size := 65536, alignment := 8, fixed_size := false }

/-- `sp_arena_create_block` from src/sp_arena.c.  `mem` is the address the
backing allocator returns for the buffer, `fresh` the id of the new block
node; both allocator calls are modelled as succeeding.  Returns the new
block and the arena with `total_allocated` increased. -/
def sp_arena_create_block (arena : sp_arena) (min_size mem fresh : Nat) :
    sp_arena_block × sp_arena :=
  let bs0 := arena.config.block_size
  let block_size := if min_size > bs0 then align_forward min_size 4096 else bs0
  ({ id := fresh, memory := mem, size := block_size, used := 0 },
   { arena with total_allocated := (arena.total_allocated + block_size) % U64 })

/-- `sp_arena_create_with_config` from src/sp_arena.c: validates the
configuration, then eagerly creates the first block with `first = current`
pointing at it. -/
def sp_arena_create_with_config (config : sp_arena_config) (mem fresh : Nat) :
    Option sp_arena :=
  if config.alignment = 0 ∨ is_power_of_two config.alignment = false then none
  else if config.block_size = 0 then none
  else
    let arena0 : sp_arena :=
      { blocks := [], cur := 0, total_allocated := 0, total_used := 0,
        config := config, last_err := .NONE }
    let nb := sp_arena_create_block arena0 0 mem fresh
    some { nb.2 with blocks := [nb.1], cur := 0 }

/-- `sp_arena_create` from src/sp_arena.c. -/
def sp_arena_create (mem fresh : Nat) : Option sp_arena :=
  sp_arena_create_with_config SP_ARENA_DEFAULT_CONFIG mem fresh

/-- The `while (next_block != NULL)` scan of `sp_arena_alloc_internal`
(src/sp_arena.c lines 172-194), as structural recursion over the blocks
after `current` in chain order.  Returns the updated suffix together with
`some (k, address, req)` when the block at offset `k` of the suffix fits
(`req` is what is added to `total_used`), and `none` when no block fits;
every block passed over has its `used` reset to 0. -/
def sp_arena_scan (size alignment : Nat) :
    List sp_arena_block → List sp_arena_block × Option (Nat × Nat × Nat)
  | [] => ([], none)
  | b :: rest =>
    let aligned_used := align_forward b.used alignment
    let padding := sub64 aligned_used b.used
    if (aligned_used + size) % U64 ≤ b.size then
      ({ b with used := (aligned_used + size) % U64 } :: rest,
       some (0, b.memory + aligned_used, (size + padding) % U64))
    else
      let r := sp_arena_scan size alignment rest
      ({ b with used := 0 } :: r.1,
       r.2.map (fun t => (t.1 + 1, t.2)))

/-- `sp_arena_alloc_internal` from src/sp_arena.c (lines 125-221).
Returns `(result pointer, updated arena)`; `mem`/`fresh` are the allocator
oracle for the new-block path. -/
def sp_arena_alloc_internal (arena? : Option sp_arena)
    (size alignment mem fresh : Nat) : Option Nat × Option sp_arena :=
  match arena? with
  | none => (none, none)
  | some arena =>
    if arena.blocks.length ≤ arena.cur ∨ size = 0 then
      (none, some { arena with
        last_err := if size = 0 then .INVALID_SIZE else .INVALID_ARENA })
    else if is_power_of_two alignment = false then
      (none, some { arena with last_err := .INVALID_ALIGNMENT })
    else
      let block := arena.blocks.getD arena.cur default
      let aligned_used := align_forward block.used alignment
      let padding := sub64 aligned_used block.used
      let req_size := (size + padding) % U64
      if (aligned_used + size) % U64 ≤ block.size then
        (some (block.memory + aligned_used),
         some { arena with
           blocks := arena.blocks.set arena.cur
             { block with used := (aligned_used + size) % U64 },
           total_used := (arena.total_used + req_size) % U64 })
      else if arena.config.fixed_size then
        (none, some { arena with last_err := .OUT_OF_MEMORY })
      else
        match sp_arena_scan size alignment (arena.blocks.drop (arena.cur + 1)) with
        | (suffix_r, some t) =>
          (some t.2.1,
           some { arena with
             blocks := arena.blocks.take (arena.cur + 1) ++ suffix_r,
             cur := arena.cur + 1 + t.1,
             total_used := (arena.total_used + t.2.2) % U64 })
        | (suffix_r, none) =>
          let arena1 :=
            { arena with blocks := arena.blocks.take (arena.cur + 1) ++ suffix_r }
          let nb := sp_arena_create_block arena1 size mem fresh
          (some nb.1.memory,
           some { nb.2 with
             blocks := arena.blocks.take (arena.cur + 1)
               ++ ({ nb.1 with used := size } :: suffix_r),
             cur := arena.cur + 1,
             total_used := (arena.total_used + size) % U64 })

/-- `sp_arena_alloc` from src/sp_arena.c: it reads
`arena->config.alignment` before `sp_arena_alloc_internal` performs its
null check, so a NULL arena is undefined behavior (a null dereference),
modelled by the outer `none`. -/
def sp_arena_alloc (arena? : Option sp_arena) (size mem fresh : Nat) :
    Option (Option Nat × Option sp_arena) :=
  arena?.map fun a => sp_arena_alloc_internal (some a) size a.config.alignment mem fresh

/-- `sp_arena_alloc_aligned` from src/sp_arena.c. -/
def sp_arena_alloc_aligned (arena? : Option sp_arena)
    (size alignment mem fresh : Nat) : Option Nat × Option sp_arena :=
  sp_arena_alloc_internal arena? size alignment mem fresh

/-- `sp_arena_calloc` from src/sp_arena.c: allocation followed by
`memset(result, 0, size)` when the result is non-null; the zero-fill is
recorded as an `(address, length)` event.  Inherits `sp_arena_alloc`'s
null-arena undefined behavior. -/
def sp_arena_calloc (arena? : Option sp_arena) (size mem fresh : Nat) :
    Option ((Option Nat × Option sp_arena) × Option (Nat × Nat)) :=
  (sp_arena_alloc arena? size mem fresh).map fun r =>
    (r, r.1.map fun p => (p, size))

/-- `sp_arena_resize` from src/sp_arena.c (lines 241-314).  Returns
`(result pointer, updated arena, memcpy event)` where the event is
`some (dst, src, len)` exactly when the source calls
`memcpy(dst, src, len)`. -/
def sp_arena_resize (arena? : Option sp_arena)
    (old_ptr old_size new_size mem fresh : Nat) :
    Option Nat × Option sp_arena × Option (Nat × Nat × Nat) :=
  match arena? with
  | none => (none, none, none)
  | some arena =>
    if old_ptr = 0 ∨ old_size = 0 ∨ new_size = 0 then
      (none, some { arena with last_err := .INVALID_SIZE }, none)
    else if arena.blocks.length ≤ arena.cur then
      (none, some { arena with last_err := .INVALID_ARENA }, none)
    else
      let block := arena.blocks.getD arena.cur default
      let block_end := block.memory + block.used - old_size
      if old_ptr ≠ block_end then
        let r := sp_arena_alloc_internal (some arena) new_size
          arena.config.alignment mem fresh
        match r.1 with
        | some p => (some p, r.2, some (p, old_ptr, min old_size new_size))
        | none => (none, r.2, none)
      else if old_size < new_size ∧
          block.size < (block.used + (new_size - old_size)) % U64 then
        if arena.config.fixed_size then
          (none, some { arena with last_err := .OUT_OF_MEMORY }, none)
        else
          let r := sp_arena_alloc_internal (some arena) new_size
            arena.config.alignment mem fresh
          match r.1, r.2 with
          | some p, some a1 =>
            (some p,
             some { a1 with
               blocks := a1.blocks.set arena.cur
                 { a1.blocks.getD arena.cur default with
                   used := sub64 (a1.blocks.getD arena.cur default).used old_size },
               total_used := sub64 a1.total_used old_size },
             some (p, old_ptr, old_size))
          | _, _ => (none, r.2, none)
      else
        (some old_ptr,
         some { arena with
           blocks := arena.blocks.set arena.cur
             { block with used := (sub64 block.used old_size + new_size) % U64 },
           total_used := (sub64 arena.total_used old_size + new_size) % U64 },
         none)

/-- `sp_arena_temp` from src/spar.h.  `arena` records whether the saved
arena pointer is non-null; `block` is the id of the saved current block
(`none` = NULL). -/
structure sp_arena_temp where
  arena : Bool
  block : Option Nat
  used : Nat
  total_used : Nat
deriving DecidableEq, Inhabited

/-- `sp_arena_temp_begin` from src/sp_arena.c (lines 327-351).  The arena
is returned unchanged alongside the snapshot, reflecting that the source
mutates nothing. -/
def sp_arena_temp_begin (arena? : Option sp_arena) :
    sp_arena_temp × Option sp_arena :=
  match arena? with
  | none =>
    ({ arena := false, block := none, used := 0, total_used := 0 }, none)
  | some a =>
    if a.blocks.length ≤ a.cur then
      ({ arena := true, block := none, used := 0, total_used := 0 }, some a)
    else
      ({ arena := true,
         block := some ((a.blocks.getD a.cur default).id),
         used := (a.blocks.getD a.cur default).used,
         total_used := a.total_used }, some a)

/-- `sp_arena_temp_end` from src/sp_arena.c (lines 353-372): restores
`current` to the snapshotted block (located by its node identity), resets
that block's `used`, and restores `total_used`.  A null saved arena or a
null saved block is a no-op. -/
def sp_arena_temp_end (temp : sp_arena_temp) (arena? : Option sp_arena) :
    Option sp_arena :=
  if temp.arena = false then arena?
  else
    match temp.block, arena? with
    | none, _ => arena?
    | some _, none => none
    | some bid, some a =>
      let idx := a.blocks.findIdx fun b => b.id == bid
      some { a with
        cur := idx,
        blocks := a.blocks.set idx
          { a.blocks.getD idx default with used := temp.used },
        total_used := temp.total_used }

/-- `sp_arena_clear` from src/sp_arena.c (lines 375-393). -/
def sp_arena_clear (arena? : Option sp_arena) : Option sp_arena :=
  match arena? with
  | none => none
  | some a =>
    some { a with
      blocks := a.blocks.map fun b => { b with used := 0 },
      cur := 0,
      total_used := 0 }

/-- `sp_arena_get_last_error` from src/sp_arena.c (lines 422-427). -/
def sp_arena_get_last_error (arena? : Option sp_arena) : sp_arena_err_t :=
  match arena? with
  | none => .INVALID_ARENA
  | some a => a.last_err

/-- `sp_arena_total_allocated` from src/sp_arena.c (lines 452-457). -/
def sp_arena_total_allocated (arena? : Option sp_arena) : Nat :=
  match arena? with
  | none => 0
  | some a => a.total_allocated

/-- `sp_arena_total_used` from src/sp_arena.c (lines 460-465). -/
def sp_arena_total_used (arena? : Option sp_arena) : Nat :=
  match arena? with
  | none => 0
  | some a => a.total_used

/-- `sp_arena_utilization` from src/sp_arena.c (lines 468-473).  The
float division of the non-null, non-zero branch is modelled as exact
rational division; the branches returning the literal `0.0f` are exact. -/
def sp_arena_utilization (arena? : Option sp_arena) : Rat :=
  match arena? with
  | none => 0
  | some a =>
    if a.total_allocated = 0 then 0
    else (a.total_used : Rat) / (a.total_allocated : Rat)

/-! Concrete states used by the counterexamples and witnesses below.
The `c2_` states replay an actual call sequence from
`sp_arena_create_with_config`, so the state they reach is reachable in the
source program:  fill the first 64-byte block, spill 8 bytes into a second
block under a checkpoint, rewind (which leaves the second block's `used`
stale at 8), refill the first block, then allocate 16 more bytes. -/

def c2_cfg : sp_arena_config :=
  { block_size := 64, alignment := 8, fixed_size := false }

def c2_s0 : Option sp_arena := sp_arena_create_with_config c2_cfg 1000 1

def c2_t : sp_arena_temp := (sp_arena_temp_begin c2_s0).1

def c2_s1 : Option sp_arena := (sp_arena_alloc_aligned c2_s0 64 8 0 0).2

def c2_s2 : Option sp_arena := (sp_arena_alloc_aligned c2_s1 8 8 2000 2).2

def c2_s3 : Option sp_arena := sp_arena_temp_end c2_t c2_s2

def c2_s4 : Option sp_arena := (sp_arena_alloc_aligned c2_s3 64 8 0 0).2

def c2_r : Option Nat × Option sp_arena := sp_arena_alloc_aligned c2_s4 16 8 0 0

/-- The arena state reached by `sp_arena_create()` followed by
`sp_arena_alloc(arena, 2^64 - 1000)`: `align_forward(2^64 - 1000, 4096)`
wraps to 0, so the new block has `size = 0` but `used = 2^64 - 1000`. -/
def c9_after : sp_arena :=
  { blocks := [⟨1, 1000, 65536, 0⟩, ⟨2, 2000, 0, U64 - 1000⟩],
    cur := 1, total_allocated := 65536, total_used := U64 - 1000,
    config := SP_ARENA_DEFAULT_CONFIG, last_err := .NONE }

/-! Helper lemmas about the 64-bit arithmetic and the list model. -/

theorem sub64_eq_sub {a b : Nat} (hba : b ≤ a) (ha : a < U64) :
    sub64 a b = a - b := by
  have hb : b < U64 := lt_of_le_of_lt hba ha
  unfold sub64
  rw [Nat.mod_eq_of_lt hb]
  have h1 : a + (U64 - b) = (a - b) + U64 := by omega
  rw [h1, Nat.add_mod_right]
  exact Nat.mod_eq_of_lt (by omega)

theorem set_getD_self {α : Type} (d : α) :
    ∀ (l : List α) (i : Nat), l.set i (l.getD i d) = l := by
  intro l
  induction l with
  | nil => intro i; rfl
  | cons x t ih =>
    intro i
    cases i with
    | zero => rfl
    | succ n => simpa [List.set] using ih n

/-- Behavior of `sp_arena_alloc_internal` when the request fits the
current block: the happy path at src/sp_arena.c lines 142-160, under
hypotheses placing all the 64-bit arithmetic below the wrap. -/
theorem alloc_internal_current_fits (a : sp_arena) (blk : sp_arena_block)
    (size alignment mem fresh : Nat)
    (hblk : a.blocks.getD a.cur default = blk)
    (hcur : a.cur < a.blocks.length)
    (hsz : 0 < size)
    (hpow : is_power_of_two alignment = true)
    (hup : blk.used ≤ align_forward blk.used alignment)
    (hfit : align_forward blk.used alignment + size ≤ blk.size)
    (hbs : blk.size < U64)
    (htu : a.total_used +
      (size + (align_forward blk.used alignment - blk.used)) < U64) :
    sp_arena_alloc_internal (some a) size alignment mem fresh =
      (some (blk.memory + align_forward blk.used alignment),
       some { a with
         blocks := a.blocks.set a.cur
           { blk with used := align_forward blk.used alignment + size },
         total_used := a.total_used +
           (size + (align_forward blk.used alignment - blk.used)) }) := by
  have h1 : ¬ (a.blocks.length ≤ a.cur ∨ size = 0) := by omega
  have h2 : ¬ (is_power_of_two alignment = false) := by simp [hpow]
  have hrs : align_forward blk.used alignment + size < U64 :=
    lt_of_le_of_lt hfit hbs
  have hmod : (align_forward blk.used alignment + size) % U64 =
      align_forward blk.used alignment + size := Nat.mod_eq_of_lt hrs
  have hfit2 : (align_forward blk.used alignment + size) % U64 ≤ blk.size := by
    rw [hmod]; exact hfit
  have hsub : sub64 (align_forward blk.used alignment) blk.used =
      align_forward blk.used alignment - blk.used :=
    sub64_eq_sub hup (by omega)
  have hreq : (size + sub64 (align_forward blk.used alignment) blk.used) % U64 =
      size + (align_forward blk.used alignment - blk.used) := by
    rw [hsub]; exact Nat.mod_eq_of_lt (by omega)
  have htu2 : (a.total_used +
      (size + (align_forward blk.used alignment - blk.used))) % U64 =
      a.total_used + (size + (align_forward blk.used alignment - blk.used)) :=
    Nat.mod_eq_of_lt htu
  simp only [sp_arena_alloc_internal, hblk]
  rw [if_neg h1, if_neg h2, if_pos hfit2, hmod, hreq, htu2]

/-- C1: for a live arena, a positive size and a power-of-two alignment,
if rounding the current block's `used` up to the alignment gives
`rounded` with `rounded + size ≤` the block's capacity, allocation
returns address `memory + rounded`, advances the block's `used` to
`rounded + size`, and adds exactly `size + padding` to `total_used`,
where `padding = rounded - previous used`; nothing else changes. -/
theorem C1_alloc_in_current_block (a : sp_arena) (blk : sp_arena_block)
    (size alignment mem fresh : Nat)
    (hblk : a.blocks.getD a.cur default = blk)
    (hcur : a.cur < a.blocks.length)
    (hsz : 0 < size)
    (hpow : is_power_of_two alignment = true)
    (hup : blk.used ≤ align_forward blk.used alignment)
    (hfit : align_forward blk.used alignment + size ≤ blk.size)
    (hbs : blk.size < U64)
    (htu : a.total_used +
      (size + (align_forward blk.used alignment - blk.used)) < U64) :
    sp_arena_alloc_internal (some a) size alignment mem fresh =
      (some (blk.memory + align_forward blk.used alignment),
       some { a with
         blocks := a.blocks.set a.cur
           { blk with used := align_forward blk.used alignment + size },
         total_used := a.total_used +
           (size + (align_forward blk.used alignment - blk.used)) }) :=
  alloc_internal_current_fits a blk size alignment mem fresh
    hblk hcur hsz hpow hup hfit hbs htu

/-- C1 witness: a 64-byte block with `used = 3`; allocating 2 bytes at
alignment 8 rounds to offset 8, returns address 1008, sets `used = 10`
and adds `2 + 5 = 7` to `total_used`. -/
theorem C1_alloc_in_current_block_witness :
    sp_arena_alloc_internal
      (some ⟨[⟨1, 1000, 64, 3⟩], 0, 64, 3, ⟨64, 8, false⟩, .NONE⟩) 2 8 0 0 =
      (some 1008,
       some ⟨[⟨1, 1000, 64, 10⟩], 0, 64, 10, ⟨64, 8, false⟩, .NONE⟩) := by
  have h := C1_alloc_in_current_block
    ⟨[⟨1, 1000, 64, 3⟩], 0, 64, 3, ⟨64, 8, false⟩, .NONE⟩
    ⟨1, 1000, 64, 3⟩ 2 8 0 0 (by decide) (by decide) (by decide) (by decide)
    (by decide) (by decide) (by decide) (by decide)
  exact h

/-- C4: resizing the most recent allocation (checked: its end coincides
with the current block's `used`) from `old_size` to a larger `new_size`
that still fits the current block's remaining capacity returns the same
address unchanged and adjusts both the block's `used` and the arena's
`total_used` by exactly `new_size - old_size`. -/
theorem C4_resize_last_in_place (a : sp_arena) (blk : sp_arena_block)
    (old_ptr old_size new_size mem fresh : Nat)
    (hblk : a.blocks.getD a.cur default = blk)
    (hcur : a.cur < a.blocks.length)
    (hptr : old_ptr ≠ 0)
    (hos : 0 < old_size)
    (hlt : old_size < new_size)
    (hend : old_ptr = blk.memory + blk.used - old_size)
    (hole : old_size ≤ blk.used)
    (hfit : blk.used + (new_size - old_size) ≤ blk.size)
    (hbs : blk.size < U64)
    (htu1 : old_size ≤ a.total_used)
    (htu2 : a.total_used - old_size + new_size < U64) :
    sp_arena_resize (some a) old_ptr old_size new_size mem fresh =
      (some old_ptr,
       some { a with
         blocks := a.blocks.set a.cur
           { blk with used := blk.used - old_size + new_size },
         total_used := a.total_used - old_size + new_size },
       none) := by
  have h1 : ¬ (old_ptr = 0 ∨ old_size = 0 ∨ new_size = 0) := by omega
  have h2 : ¬ (a.blocks.length ≤ a.cur) := by omega
  have h3 : ¬ (old_ptr ≠ blk.memory + blk.used - old_size) := fun h => h hend
  have hmod : (blk.used + (new_size - old_size)) % U64 =
      blk.used + (new_size - old_size) :=
    Nat.mod_eq_of_lt (lt_of_le_of_lt hfit hbs)
  have h4 : ¬ (old_size < new_size ∧
      blk.size < (blk.used + (new_size - old_size)) % U64) := by
    rw [hmod]; omega
  have hsubu : sub64 blk.used old_size = blk.used - old_size :=
    sub64_eq_sub hole (by omega)
  have husedmod : (blk.used - old_size + new_size) % U64 =
      blk.used - old_size + new_size := by
    refine Nat.mod_eq_of_lt ?_
    have : blk.used - old_size + new_size = blk.used + (new_size - old_size) := by
      omega
    omega
  have htulw : a.total_used < U64 := by omega
  have hsubt : sub64 a.total_used old_size = a.total_used - old_size :=
    sub64_eq_sub htu1 htulw
  have htumod : (a.total_used - old_size + new_size) % U64 =
      a.total_used - old_size + new_size := Nat.mod_eq_of_lt htu2
  simp only [sp_arena_resize, hblk]
  rw [if_neg h1, if_neg h2, if_neg h3, if_neg h4, hsubu, husedmod, hsubt, htumod]

/-- C4 witness: a 64-byte block with `used = 10`; the most recent 4-byte
allocation at 1006 grows in place to 8 bytes, keeping address 1006 and
adding 4 to both `used` and `total_used`. -/
theorem C4_resize_last_in_place_witness :
    sp_arena_resize
      (some ⟨[⟨1, 1000, 64, 10⟩], 0, 64, 10, ⟨64, 8, false⟩, .NONE⟩)
      1006 4 8 0 0 =
      (some 1006,
       some ⟨[⟨1, 1000, 64, 14⟩], 0, 64, 14, ⟨64, 8, false⟩, .NONE⟩,
       none) := by
  have h := C4_resize_last_in_place
    ⟨[⟨1, 1000, 64, 10⟩], 0, 64, 10, ⟨64, 8, false⟩, .NONE⟩
    ⟨1, 1000, 64, 10⟩ 1006 4 8 0 0 (by decide) (by decide) (by decide)
    (by decide) (by decide) (by decide) (by decide) (by decide) (by decide)
    (by decide) (by decide)
  exact h

/-- C5: resizing a pointer that is not the most recent allocation (its
end does not coincide with the current block's `used`) always performs a
fresh allocation of `new_size` (here landing in the current block),
copies exactly `min(old_size, new_size)` bytes from the old region to the
new one, returns the new address — different from `old_ptr` — and does
not reclaim the old region: the final state is exactly the post-allocation
state, with neither the block's `used` nor `total_used` decreased by
`old_size`. -/
theorem C5_resize_not_last_fresh_copy (a : sp_arena) (blk : sp_arena_block)
    (old_ptr old_size new_size mem fresh : Nat)
    (hblk : a.blocks.getD a.cur default = blk)
    (hcur : a.cur < a.blocks.length)
    (hptr : old_ptr ≠ 0)
    (hos : 0 < old_size)
    (hns : 0 < new_size)
    (hne : old_ptr ≠ blk.memory + blk.used - old_size)
    (hpow : is_power_of_two a.config.alignment = true)
    (hup : blk.used ≤ align_forward blk.used a.config.alignment)
    (hfit : align_forward blk.used a.config.alignment + new_size ≤ blk.size)
    (hbs : blk.size < U64)
    (htu : a.total_used +
      (new_size + (align_forward blk.used a.config.alignment - blk.used)) < U64)
    (hin1 : blk.memory ≤ old_ptr)
    (hin2 : old_ptr + old_size ≤ blk.memory + blk.used) :
    sp_arena_resize (some a) old_ptr old_size new_size mem fresh =
      (some (blk.memory + align_forward blk.used a.config.alignment),
       some { a with
         blocks := a.blocks.set a.cur
           { blk with used := align_forward blk.used a.config.alignment + new_size },
         total_used := a.total_used +
           (new_size + (align_forward blk.used a.config.alignment - blk.used)) },
       some (blk.memory + align_forward blk.used a.config.alignment, old_ptr,
         min old_size new_size)) ∧
    blk.memory + align_forward blk.used a.config.alignment ≠ old_ptr := by
  have h1 : ¬ (old_ptr = 0 ∨ old_size = 0 ∨ new_size = 0) := by omega
  have h2 : ¬ (a.blocks.length ≤ a.cur) := by omega
  have halloc := alloc_internal_current_fits a blk new_size a.config.alignment
    mem fresh hblk hcur hns hpow hup hfit hbs htu
  constructor
  · simp only [sp_arena_resize, hblk]
    rw [if_neg h1, if_neg h2, if_pos hne, halloc]
  · omega

/-- C5 witness: a 64-byte block with `used = 16`; the old 4-byte region
at 1004 (ending at 1008 ≠ 1016) is not the most recent allocation, so
resize to 8 bytes allocates fresh at 1016, copies `min(4, 8) = 4` bytes
from 1004 to 1016, and leaves the old footprint counted. -/
theorem C5_resize_not_last_fresh_copy_witness :
    sp_arena_resize
      (some ⟨[⟨1, 1000, 64, 16⟩], 0, 64, 16, ⟨64, 8, false⟩, .NONE⟩)
      1004 4 8 0 0 =
      (some 1016,
       some ⟨[⟨1, 1000, 64, 24⟩], 0, 64, 24, ⟨64, 8, false⟩, .NONE⟩,
       some (1016, 1004, 4)) ∧
    (1016 : Nat) ≠ 1004 := by
  have h := C5_resize_not_last_fresh_copy
    ⟨[⟨1, 1000, 64, 16⟩], 0, 64, 16, ⟨64, 8, false⟩, .NONE⟩
    ⟨1, 1000, 64, 16⟩ 1004 4 8 0 0 (by decide) (by decide) (by decide)
    (by decide) (by decide) (by decide) (by decide) (by decide) (by decide)
    (by decide) (by decide) (by decide) (by decide)
  exact h

/-- What the block-reuse scan loop does when it finds a fitting block at
offset `k` of the suffix after `current`: every block strictly before `k`
failed the fit test and was reset to `used = 0`, the block at `k` passed
the fit test from its own aligned (possibly stale, nonzero) `used`
offset, the returned address is that block's `memory` plus that aligned
offset, and blocks after `k` are untouched. -/
theorem scan_found_spec (size alignment : Nat) :
    ∀ (bs bs' : List sp_arena_block) (k addr add : Nat),
      sp_arena_scan size alignment bs = (bs', some (k, addr, add)) →
      k < bs.length ∧
      addr = (bs.getD k default).memory +
        align_forward (bs.getD k default).used alignment ∧
      add = (size + sub64 (align_forward (bs.getD k default).used alignment)
        (bs.getD k default).used) % U64 ∧
      (align_forward (bs.getD k default).used alignment + size) % U64 ≤
        (bs.getD k default).size ∧
      (∀ j < k, ¬ ((align_forward (bs.getD j default).used alignment + size) % U64 ≤
        (bs.getD j default).size)) ∧
      bs' = (bs.take k).map (fun b => { b with used := 0 }) ++
        ({ bs.getD k default with
           used := (align_forward (bs.getD k default).used alignment + size) % U64 }
          :: bs.drop (k + 1)) := by
  intro bs
  induction bs with
  | nil =>
    intro bs' k addr add h
    simp [sp_arena_scan] at h
  | cons b rest ih =>
    intro bs' k addr add h
    simp only [sp_arena_scan] at h
    by_cases hfit : (align_forward b.used alignment + size) % U64 ≤ b.size
    · rw [if_pos hfit] at h
      simp only [Prod.mk.injEq, Option.some.injEq] at h
      obtain ⟨hbs', hk, haddr, hadd⟩ := h
      subst hk haddr hadd
      refine ⟨by simp, by simp, by simp, by simpa using hfit, ?_, by simp [hbs']⟩
      intro j hj
      omega
    · rw [if_neg hfit] at h
      rcases hscan : sp_arena_scan size alignment rest with ⟨rest1, ores⟩
      rw [hscan] at h
      cases ores with
      | none => simp at h
      | some t =>
        obtain ⟨k', addr', add'⟩ := t
        simp only [Option.map_some', Prod.mk.injEq, Option.some.injEq] at h
        obtain ⟨hbs', hk, haddr, hadd⟩ := h
        subst hk haddr hadd
        obtain ⟨h1, h2, h3, h4, h5, h6⟩ := ih rest1 k' addr' add' hscan
        refine ⟨by simpa using Nat.succ_lt_succ h1, ?_, ?_, ?_, ?_, ?_⟩
        · simpa [List.getD_cons_succ] using h2
        · simpa [List.getD_cons_succ] using h3
        · simpa [List.getD_cons_succ] using h4
        · intro j hj
          cases j with
          | zero => simpa [List.getD_cons_zero] using hfit
          | succ m =>
            rw [List.getD_cons_succ]
            exact h5 m (by omega)
        · rw [← hbs']
          simp only [List.take_succ_cons, List.map_cons, List.getD_cons_succ,
            List.drop_succ_cons, List.cons_append]
          rw [h6]

/-- C2 (amended): for a growable arena whose current block cannot fit the
request, allocation scans the blocks after the current one in chain
order; every block skipped during the scan has its `used` reset to 0, and
when the block at offset `k` can hold the request from its own aligned
`used` offset, it becomes current and the allocation is carved at
`align_forward(that block's existing used, alignment)` — offset 0 only
when that `used` is 0, not in general. -/
theorem C2_growable_scan_reuses_block (a : sp_arena)
    (size alignment mem fresh : Nat)
    (suffix1 : List sp_arena_block) (k addr add : Nat)
    (hcur : a.cur < a.blocks.length)
    (hsz : 0 < size)
    (hpow : is_power_of_two alignment = true)
    (hfix : a.config.fixed_size = false)
    (hunfit : ¬ ((align_forward (a.blocks.getD a.cur default).used alignment
      + size) % U64 ≤ (a.blocks.getD a.cur default).size))
    (hscan : sp_arena_scan size alignment (a.blocks.drop (a.cur + 1)) =
      (suffix1, some (k, addr, add))) :
    sp_arena_alloc_internal (some a) size alignment mem fresh =
      (some (((a.blocks.drop (a.cur + 1)).getD k default).memory +
        align_forward ((a.blocks.drop (a.cur + 1)).getD k default).used alignment),
       some { a with
         blocks := a.blocks.take (a.cur + 1) ++
           (((a.blocks.drop (a.cur + 1)).take k).map (fun b => { b with used := 0 }) ++
            ({ (a.blocks.drop (a.cur + 1)).getD k default with
               used := (align_forward ((a.blocks.drop (a.cur + 1)).getD k default).used
                 alignment + size) % U64 }
              :: (a.blocks.drop (a.cur + 1)).drop (k + 1))),
         cur := a.cur + 1 + k,
         total_used := (a.total_used + add) % U64 }) ∧
    k < (a.blocks.drop (a.cur + 1)).length ∧
    (∀ j < k, ¬ ((align_forward ((a.blocks.drop (a.cur + 1)).getD j default).used
      alignment + size) % U64 ≤ ((a.blocks.drop (a.cur + 1)).getD j default).size)) ∧
    (align_forward ((a.blocks.drop (a.cur + 1)).getD k default).used alignment
      + size) % U64 ≤ ((a.blocks.drop (a.cur + 1)).getD k default).size := by
  obtain ⟨h1, h2, h3, h4, h5, h6⟩ := scan_found_spec size alignment _ _ _ _ _ hscan
  have hg1 : ¬ (a.blocks.length ≤ a.cur ∨ size = 0) := by omega
  have hg2 : ¬ (is_power_of_two alignment = false) := by simp [hpow]
  refine ⟨?_, h1, h5, h4⟩
  simp only [sp_arena_alloc_internal]
  rw [if_neg hg1, if_neg hg2, if_neg hunfit, if_neg (by simp [hfix]), hscan, h2, h6]

/-- C2 witness: the reachable stale state — current block full, the next
block carrying `used = 8` — where allocating 16 bytes at alignment 8
reuses the next block, making it current and carving at its aligned
stale offset 8 (address 2008). -/
theorem C2_growable_scan_reuses_block_witness :
    sp_arena_scan 16 8 [⟨2, 2000, 64, 8⟩] =
      ([⟨2, 2000, 64, 24⟩], some (0, 2008, 16)) ∧
    sp_arena_alloc_internal
      (some ⟨[⟨1, 1000, 64, 64⟩, ⟨2, 2000, 64, 8⟩], 0, 128, 64,
        ⟨64, 8, false⟩, .NONE⟩) 16 8 0 0 =
      (some 2008,
       some ⟨[⟨1, 1000, 64, 64⟩, ⟨2, 2000, 64, 24⟩], 1, 128, 80,
         ⟨64, 8, false⟩, .NONE⟩) :=
  ⟨by decide, by
    have h := C2_growable_scan_reuses_block
      ⟨[⟨1, 1000, 64, 64⟩, ⟨2, 2000, 64, 8⟩], 0, 128, 64, ⟨64, 8, false⟩, .NONE⟩
      16 8 0 0 [⟨2, 2000, 64, 24⟩] 0 2008 16 (by decide) (by decide)
      (by decide) (by decide) (by decide) (by decide)
    exact h.1⟩

/-- In a chain whose block ids are distinct (as the addresses of distinct
C block nodes are), searching for the id of the block at position `i`
finds position `i`. -/
theorem findIdx_getD_id (l : List sp_arena_block) :
    ∀ i : Nat, i < l.length → (l.map sp_arena_block.id).Nodup →
      (l.findIdx fun b => b.id == (l.getD i default).id) = i := by
  induction l with
  | nil => intro i hi; simp at hi
  | cons x t ih =>
    intro i hi hnd
    rw [List.map_cons, List.nodup_cons] at hnd
    cases i with
    | zero => simp [List.findIdx_cons]
    | succ n =>
      have hn : n < t.length := by simpa using hi
      have hmem : (t.getD n default).id ∈ t.map sp_arena_block.id := by
        rw [List.getD_eq_getElem t default hn]
        exact List.mem_map_of_mem _ (t.getElem_mem hn)
      have hne : (x.id == ((x :: t).getD (n + 1) default).id) = false := by
        rw [List.getD_cons_succ, beq_eq_false_iff_ne]
        intro he
        exact hnd.1 (he ▸ hmem)
      rw [List.findIdx_cons, hne, cond_false, List.getD_cons_succ]
      rw [List.getD_cons_succ] at hne
      exact congrArg (· + 1) (ih n hn hnd.2)

/-- C7: on a live arena, `sp_arena_temp_begin` mutates nothing (the
arena comes back unchanged), and an immediately following
`sp_arena_temp_end` with no intervening allocation restores the arena to
exactly its previous state — same `total_used`, `total_allocated`,
current block and `used` offset; on a null arena, `begin` yields the
sentinel snapshot (null block) whose `end` is a no-op on any state. -/
theorem C7_temp_begin_end_roundtrip (a : sp_arena)
    (hcur : a.cur < a.blocks.length)
    (hids : (a.blocks.map sp_arena_block.id).Nodup) :
    (sp_arena_temp_begin (some a)).2 = some a ∧
    sp_arena_temp_end (sp_arena_temp_begin (some a)).1 (some a) = some a ∧
    (sp_arena_temp_begin none).1.block = none ∧
    ∀ s, sp_arena_temp_end (sp_arena_temp_begin none).1 s = s := by
  have hnot : ¬ (a.blocks.length ≤ a.cur) := by omega
  refine ⟨?_, ?_, rfl, fun s => rfl⟩
  · simp only [sp_arena_temp_begin]
    rw [if_neg hnot]
  · simp only [sp_arena_temp_begin]
    rw [if_neg hnot]
    simp only [sp_arena_temp_end]
    rw [if_neg (by simp)]
    rw [findIdx_getD_id a.blocks a.cur hcur hids]
    rw [set_getD_self]

/-- C7 witness: a two-block arena; `begin` then `end` restores the exact
state, and the null-arena sentinel makes `end` the identity. -/
theorem C7_temp_begin_end_roundtrip_witness :
    (sp_arena_temp_begin (some ⟨[⟨1, 1000, 64, 8⟩, ⟨2, 2000, 64, 5⟩], 0, 128, 8,
      ⟨64, 8, false⟩, .NONE⟩)).2 =
      some ⟨[⟨1, 1000, 64, 8⟩, ⟨2, 2000, 64, 5⟩], 0, 128, 8,
        ⟨64, 8, false⟩, .NONE⟩ ∧
    sp_arena_temp_end
      (sp_arena_temp_begin (some ⟨[⟨1, 1000, 64, 8⟩, ⟨2, 2000, 64, 5⟩], 0, 128, 8,
        ⟨64, 8, false⟩, .NONE⟩)).1
      (some ⟨[⟨1, 1000, 64, 8⟩, ⟨2, 2000, 64, 5⟩], 0, 128, 8,
        ⟨64, 8, false⟩, .NONE⟩) =
      some ⟨[⟨1, 1000, 64, 8⟩, ⟨2, 2000, 64, 5⟩], 0, 128, 8,
        ⟨64, 8, false⟩, .NONE⟩ ∧
    (sp_arena_temp_begin none).1.block = none ∧
    ∀ s, sp_arena_temp_end (sp_arena_temp_begin none).1 s = s := by
  have h := C7_temp_begin_end_roundtrip
    ⟨[⟨1, 1000, 64, 8⟩, ⟨2, 2000, 64, 5⟩], 0, 128, 8, ⟨64, 8, false⟩, .NONE⟩
    (by decide) (by decide)
  exact h

/-- C8: clearing a live arena sets every block's `used` to 0, moves
`current` back to `first` (index 0), and resets `total_used` to 0, while
`total_allocated`, the chain structure (identities, buffers and sizes of
all blocks, in order) and the configuration are unchanged. -/
theorem C8_clear_resets_used_keeps_storage (a : sp_arena) :
    ∃ a1, sp_arena_clear (some a) = some a1 ∧
      (∀ b ∈ a1.blocks, b.used = 0) ∧
      a1.cur = 0 ∧
      a1.total_used = 0 ∧
      a1.total_allocated = a.total_allocated ∧
      a1.blocks.map (fun b => (b.id, b.memory, b.size)) =
        a.blocks.map (fun b => (b.id, b.memory, b.size)) ∧
      a1.config = a.config ∧
      a1.blocks.length = a.blocks.length := by
  refine ⟨_, rfl, ?_, rfl, rfl, rfl, ?_, rfl, ?_⟩
  · intro b hb
    rw [List.mem_map] at hb
    obtain ⟨x, -, rfl⟩ := hb
    rfl
  · rw [List.map_map]
    rfl
  · exact List.length_map a.blocks _

/-- C10: every read-only introspection applied to a null arena handle
returns its fixed default: `INVALID_ARENA`, 0, 0 and 0.0; the model
functions are pure, so no state is touched. -/
theorem C10_null_introspection_defaults :
    sp_arena_get_last_error none = sp_arena_err_t.INVALID_ARENA ∧
    sp_arena_total_allocated none = 0 ∧
    sp_arena_total_used none = 0 ∧
    sp_arena_utilization none = 0 :=
  ⟨rfl, rfl, rfl, rfl⟩

/-- C6: the claim that every allocation entry point handles a null arena
by recording `INVALID_ARENA` fails: `sp_arena_alloc` and
`sp_arena_calloc` read `arena->config.alignment` before
`sp_arena_alloc_internal`'s null check runs, so a null arena is a null
dereference (undefined behavior, the model's outer `none`) rather than a
recorded error — and on a null arena there is no `last_err` field to
record into at all. -/
theorem C6_null_arena_plain_alloc_undefined :
    sp_arena_alloc none 1 0 0 = none ∧ sp_arena_calloc none 1 0 0 = none :=
  ⟨rfl, rfl⟩

/-- C3: the claim that a block created for `min_size` larger than the
configured `block_size` is at least `min_size` fails at
`min_size = 2^64 - 1000` (default 64 KiB configuration):
`align_forward(min_size, 4096)` wraps modulo 2^64 and the block is
created with `size = 0 < min_size` (while `total_allocated` grows by
that size, 0). -/
theorem C3_create_block_size_overflow :
    65536 < U64 - 1000 ∧
    (sp_arena_create_block
      ⟨[⟨1, 1000, 65536, 0⟩], 0, 65536, 0, SP_ARENA_DEFAULT_CONFIG, .NONE⟩
      (U64 - 1000) 2000 2).1.size = 0 ∧
    ¬ (U64 - 1000 ≤ (sp_arena_create_block
      ⟨[⟨1, 1000, 65536, 0⟩], 0, 65536, 0, SP_ARENA_DEFAULT_CONFIG, .NONE⟩
      (U64 - 1000) 2000 2).1.size) ∧
    (sp_arena_create_block
      ⟨[⟨1, 1000, 65536, 0⟩], 0, 65536, 0, SP_ARENA_DEFAULT_CONFIG, .NONE⟩
      (U64 - 1000) 2000 2).2.total_allocated = 65536 := by
  refine ⟨by decide, by decide, by decide, by decide⟩

/-- C9: the invariants `used ≤ size` and `total_used ≤ total_allocated`
are violated by the reachable two-call sequence `sp_arena_create()`
followed by `sp_arena_alloc(arena, 2^64 - 1000)`: the overflow in
`sp_arena_create_block` produces a block with `size = 0` and
`used = 2^64 - 1000`, and `total_used` far exceeds `total_allocated`. -/
theorem C9_invariants_violated_by_overflow :
    sp_arena_alloc (sp_arena_create 1000 1) (U64 - 1000) 2000 2 =
      some (some 2000, some c9_after) ∧
    (c9_after.blocks.getD 1 default).size <
      (c9_after.blocks.getD 1 default).used ∧
    c9_after.total_allocated < c9_after.total_used := by
  refine ⟨by decide, by decide, by decide⟩

/-- C2 counterexample: in the reachable state `c2_s4` (current block
full, next block carrying a stale `used = 8` left by a checkpoint
rewind), allocating 16 bytes finds the next block and carves at address
`memory + 8` — its stale aligned offset — not at offset 0 of that block
as the claim states. -/
theorem C2_found_block_not_carved_at_offset_zero :
    c2_r = (some 2008,
      some ⟨[⟨1, 1000, 64, 64⟩, ⟨2, 2000, 64, 24⟩], 1, 128, 80, c2_cfg, .NONE⟩) ∧
    (2008 : Nat) ≠ 2000 + 0 ∧
    (∃ a4, c2_s4 = some a4 ∧ (a4.blocks.getD 1 default).used = 8 ∧
      (a4.blocks.getD 1 default).memory = 2000) := by
  exact ⟨by decide, by decide,
    ⟨⟨[⟨1, 1000, 64, 64⟩, ⟨2, 2000, 64, 8⟩], 0, 128, 64, c2_cfg, .NONE⟩,
      by decide, by decide, by decide⟩⟩

end SpArena
